import Mathlib

set_option maxRecDepth 16000

/-!
Verification of the blog generation pipeline in src/python/crewai/blog_generator.py.

Modelling conventions, fixed throughout this file:
* A Python string is a `List Char` (one entry per Unicode code point, which matches
  Python `len` and slicing semantics).
* Python floats are replaced by exact arithmetic. Every float comparison or `int`
  truncation in the source is encoded by an equivalent exact integer comparison;
  each such encoding is documented at the definition that uses it.
* External AI calls are oracles: a stage that calls a provider takes the text the
  provider returned (or the raised error) as an explicit argument.
* Recursions that advance by more than one list element use a fuel argument equal
  to the list length, so that every definition is structurally recursive and
  evaluates inside the kernel.
-/

/-! ## Basic Python string operations -/

/-- Python whitespace for `str.strip` and the regex class `\s`
(ASCII part; exotic Unicode whitespace is not modelled). -/
def isPySpace (c : Char) : Bool :=
  c == ' ' || c == '\t' || c == '\n' || c == '\r' || c == '\x0b' || c == '\x0c'

/-- Python `str.strip()`. -/
def pyStrip (l : List Char) : List Char :=
  ((l.dropWhile isPySpace).reverse.dropWhile isPySpace).reverse

/-- Python `str.lower()` (ASCII letters; Korean text is unaffected, as in Python). -/
def pyLower (l : List Char) : List Char := l.map Char.toLower

/-- Python `str.split(sep)` for a one-character separator. -/
def splitOnChar (sep : Char) : List Char → List (List Char)
  | [] => [[]]
  | c :: cs =>
    if c == sep then [] :: splitOnChar sep cs
    else
      match splitOnChar sep cs with
      | [] => [[c]]
      | h :: t => (c :: h) :: t

/-- Python substring test `pat in l`. -/
def hasSubstr (pat l : List Char) : Bool :=
  l.tails.any (fun t => pat.isPrefixOf t)

/-- Fuel-driven worker for `countOccs`; the fuel is the remaining list length. -/
def countOccsF (pat : List Char) : Nat → List Char → Nat
  | 0, _ => 0
  | _ + 1, [] => 0
  | fuel + 1, c :: cs =>
    if pat.isPrefixOf (c :: cs) then 1 + countOccsF pat fuel (cs.drop (pat.length - 1))
    else countOccsF pat fuel cs

/-- Python `str.count(pat)`: non-overlapping occurrences, scanning left to right. -/
def countOccs (pat l : List Char) : Nat := countOccsF pat l.length l

/-- Digits of a decimal literal folded into a number, Python `int` on a digit string. -/
def digitsToNat (ds : List Char) : Nat :=
  ds.foldl (fun acc c => 10 * acc + (c.toNat - '0'.toNat)) 0

/-! ## check_ai_detection (blog_generator.py lines 146-258)

Heuristic synthetic-likelihood scorer. The markdown strip, the sentence split and
every sub-score follow the Python code statement by statement. -/

/-- After one leading hash, consume further hashes and require a space: the
remainder of a match of the regex pattern used in the first re.sub of line 166
(one or more hashes followed by one space). Returns the text after the match,
or none when the run is not followed by a space. -/
def matchHashSpace : List Char → Option (List Char)
  | [] => none
  | c :: cs =>
    if c == '#' then matchHashSpace cs
    else if c == ' ' then some cs
    else none

/-- Fuel-driven worker for `stripHash`. -/
def stripHashF : Nat → List Char → List Char
  | 0, l => l
  | _ + 1, [] => []
  | fuel + 1, c :: cs =>
    if c == '#' then
      match matchHashSpace cs with
      | some rest => stripHashF fuel rest
      | none => c :: stripHashF fuel cs
    else c :: stripHashF fuel cs

/-- The first re.sub of line 166: delete every run of hashes followed by a space.
On a failed match the scan advances one character, as re.sub does. -/
def stripHash (l : List Char) : List Char := stripHashF l.length l

/-- The second re.sub of line 167 (alternation of double star, star, backtick,
triple backtick): it deletes every star and backtick character. -/
def stripStars (l : List Char) : List Char :=
  l.filter (fun c => !(c == '*' || c == '`'))

/-- Markdown removal applied before sentence analysis (lines 166-167): first the
heading markers, then stars and backticks. -/
def mdStrip (content : List Char) : List Char := stripStars (stripHash content)

/-- Terminal punctuation of the sentence-splitting regex `[.!?。]\s*`. -/
def isTerminalPunct (c : Char) : Bool :=
  c == '.' || c == '!' || c == '?' || c == '。'

/-- Fuel-driven worker for `splitSents`; `acc` holds the current sentence reversed. -/
def splitSentsF : Nat → List Char → List Char → List (List Char)
  | 0, acc, _ => [acc.reverse]
  | _ + 1, acc, [] => [acc.reverse]
  | fuel + 1, acc, c :: cs =>
    if isTerminalPunct c then acc.reverse :: splitSentsF fuel [] (cs.dropWhile isPySpace)
    else splitSentsF fuel (c :: acc) cs

/-- The re.split of line 169: split on terminal punctuation followed by a
whitespace run. -/
def splitSents (l : List Char) : List (List Char) := splitSentsF l.length [] l

/-- Line 170: strip each piece and keep pieces longer than 10 characters. -/
def qualSentences (content : List Char) : List (List Char) :=
  ((splitSents (mdStrip content)).map pyStrip).filter (fun s => decide (10 < s.length))

/-- The fixed phrase list `common_ai_phrases_ko` (lines 176-183). -/
def common_ai_phrases_ko : List (List Char) :=
  ["중요합니다".toList, "필수적입니다".toList, "핵심입니다".toList,
   "이러한".toList, "이것은".toList, "그것은".toList,
   "따라서".toList, "결론적으로".toList, "요약하자면".toList,
   "이를 통해".toList, "이로 인해".toList,
   "알아보겠습니다".toList, "살펴보겠습니다".toList,
   "마무리하며".toList, "정리하자면".toList]

/-- Line 185: the number of listed phrases that occur in the text
(each listed phrase contributes 0 or 1, regardless of how often it occurs). -/
def phraseCount (content : List Char) : Nat :=
  (common_ai_phrases_ko.filter (fun p => hasSubstr p content)).length

/-- Line 186: `phrase_score = min(100, phrase_count * 8)`. -/
def phrase_score (content : List Char) : Nat := min 100 (phraseCount content * 8)

/-- Line 192: ten-character prefixes of the sentences of length at least 10. -/
def sentenceStarts (sents : List (List Char)) : List (List Char) :=
  (sents.filter (fun s => decide (10 ≤ s.length))).map (List.take 10)

/-- Lines 193-195: `start_score = int((1 - unique/total) * 100)`, which is the
floor of `100 * (total - unique) / total`; 0 when there are no starts
(the code then sets the diversity to 1). -/
def start_score (sents : List (List Char)) : Nat :=
  let starts := sentenceStarts sents
  if starts.isEmpty then 0
  else (100 * (starts.length - starts.dedup.length)) / starts.length

/-- Line 197 flag: `start_diversity < 0.6`, exactly `5 * unique < 3 * total`
(false when there are no starts, since the diversity is then 1). -/
def startDiversityFlag (sents : List (List Char)) : Bool :=
  decide (5 * (sentenceStarts sents).dedup.length < 3 * (sentenceStarts sents).length)

/-- The fixed passive-marker list (line 201). -/
def passive_patterns : List (List Char) :=
  ["되었".toList, "됩니다".toList, "되며".toList, "되어".toList,
   "된다".toList, "받았".toList, "받습니다".toList]

/-- Line 202: total occurrences of the passive markers in the original content. -/
def passiveCount (content : List Char) : Nat :=
  (passive_patterns.map (fun p => countOccs p content)).sum

/-- Line 204: `passive_score = min(100, int(passive_count / n * 50))`,
exactly `min 100 (50 * count / n)` by floor division. -/
def passive_score (content : List Char) (n : Nat) : Nat :=
  min 100 ((passiveCount content * 50) / n)

/-- Statistics used by the sentence-length uniformity check (lines 210-215):
for sentence lengths `l` with count `n` and sum `S`, the deviation sum
`D = Σ (n*l - S)^2`. The mean is `S/n` and the variance is `D/n^3`. -/
def lenDevSum (lens : List Nat) : Nat :=
  (lens.map (fun l => (Nat.dist (lens.length * l) lens.sum) ^ 2)).sum

/-- The least `k ≤ 60` with `k ≥ 60 * cv` where `cv = sqrt(variance)/mean`,
encoded without square roots: `k ≥ 60*cv` holds exactly when
`3600 * D ≤ k^2 * S^2 * n` (both sides of the real inequality are nonnegative,
so squaring is an equivalence). Returns 61 when `cv > 1`. -/
def ceil60cv (lens : List Nat) : Nat :=
  match (List.range 61).filter
      (fun k => decide (3600 * lenDevSum lens ≤ k ^ 2 * lens.sum ^ 2 * lens.length)) with
  | [] => 61
  | k :: _ => k

/-- Line 216: `uniformity_score = int((1 - min(cv, 1)) * 60)`. For a real `cv ≥ 0`
this is `60 - ceil(60 * min(cv, 1)) = 60 - min(ceil(60*cv), 60)`; the code sets
`cv = 0` when the mean is 0, giving 60. -/
def uniformity_score (lens : List Nat) : Nat :=
  if 0 < lens.sum then 60 - min (ceil60cv lens) 60 else 60

/-- Line 218 flag: `cv < 0.3`, exactly `100 * D < 9 * S^2 * n`
(and true when the mean is 0, since the code then sets `cv = 0`). -/
def uniformityFlag (lens : List Nat) : Bool :=
  if 0 < lens.sum then decide (100 * lenDevSum lens < 9 * lens.sum ^ 2 * lens.length)
  else true

/-- The fixed transition-word list (lines 222-225). -/
def transition_words : List (List Char) :=
  ["또한".toList, "그러나".toList, "하지만".toList, "따라서".toList, "그리고".toList,
   "더불어".toList, "뿐만 아니라".toList, "결과적으로".toList, "마찬가지로".toList,
   "반면에".toList, "게다가".toList]

/-- Line 226: total occurrences of the transition words in the original content. -/
def transitionCount (content : List Char) : Nat :=
  (transition_words.map (fun p => countOccs p content)).sum

/-- Line 228: `transition_score = min(100, int(transition_count / n * 40))`. -/
def transition_score (content : List Char) (n : Nat) : Nat :=
  min 100 ((transitionCount content * 40) / n)

/-- The fixed generic-phrase list (lines 234-237). -/
def generic_phrases : List (List Char) :=
  ["많은 사람들이".toList, "일반적으로".toList, "대부분의 경우".toList,
   "흔히".toList, "보통".toList, "대체로".toList, "전반적으로".toList]

/-- Line 238: total occurrences of the generic phrases in the original content. -/
def genericCount (content : List Char) : Nat :=
  (generic_phrases.map (fun p => countOccs p content)).sum

/-- Line 239: `generic_score = min(100, generic_count * 15)`. -/
def generic_score (content : List Char) : Nat := min 100 (genericCount content * 15)

/-- One entry of the `issues` list. The Python code stores formatted strings; the
constructor records which check fired together with its integer data (the
float percentages that only appear inside the message text are not modelled). -/
inductive AiIssue where
  | stockPhrases (count : Nat)
  | repetitiveStarts (unique total : Nat)
  | passiveOveruse (count total : Nat)
  | uniformSentenceLength
  | transitionOveruse (count total : Nat)
  | genericExpressions (count : Nat)
deriving DecidableEq

/-- The `scores` list in the order the code appends to it (phrase, start, passive,
conditionally uniformity, transition, generic). -/
def ai_scores (content : List Char) : List Nat :=
  let sents := qualSentences content
  let n := sents.length
  [phrase_score content, start_score sents, passive_score content n]
    ++ (if 3 < n then [uniformity_score (sents.map List.length)] else [])
    ++ [transition_score content n, generic_score content]

/-- The `issues` list in the order the code appends to it. -/
def ai_issues (content : List Char) : List AiIssue :=
  let sents := qualSentences content
  let n := sents.length
  (if 40 < phrase_score content then [AiIssue.stockPhrases (phraseCount content)] else [])
    ++ (if startDiversityFlag sents then
          [AiIssue.repetitiveStarts (sentenceStarts sents).dedup.length
            (sentenceStarts sents).length]
        else [])
    ++ (if n < 2 * passiveCount content then [AiIssue.passiveOveruse (passiveCount content) n]
        else [])
    ++ (if 3 < n && uniformityFlag (sents.map List.length) then [AiIssue.uniformSentenceLength]
        else [])
    ++ (if 7 * n < 10 * transitionCount content then
          [AiIssue.transitionOveruse (transitionCount content) n]
        else [])
    ++ (if 3 < genericCount content then [AiIssue.genericExpressions (genericCount content)]
        else [])

/-- The `details` dictionary of the full return value (lines 251-257); the code
does not include the uniformity sub-score there. -/
structure AiDetails where
  phrase_score : Nat
  start_diversity_score : Nat
  passive_score : Nat
  transition_score : Nat
  generic_score : Nat
deriving DecidableEq

/-- Return value of `check_ai_detection`; `details` is absent on the two
short-circuit returns. -/
structure AiCheckReport where
  score : Nat
  issues : List AiIssue
  passed : Bool
  details : Option AiDetails
deriving DecidableEq

/-- `check_ai_detection(content)` (lines 146-258). The first guard
`not content or len(content) < 100` is equivalent to `len(content) < 100`. -/
def check_ai_detection (content : List Char) : AiCheckReport :=
  if content.length < 100 then ⟨0, [], true, none⟩
  else
    let sents := qualSentences content
    if sents.length < 5 then ⟨0, [], true, none⟩
    else
      let scores := ai_scores content
      let final : Nat := if scores.isEmpty then 0 else scores.sum / scores.length
      { score := final
        issues := ai_issues content
        passed := decide (final < 50)
        details := some ⟨phrase_score content, start_score sents,
          passive_score content sents.length, transition_score content sents.length,
          generic_score content⟩ }

/-! ## parse_prompt (blog_generator.py lines 351-374) -/

/-- The dictionary built by `parse_prompt`; a field is `none` when its key was
never assigned. -/
structure ParsedPrompt where
  topic : Option (List Char)
  tone : Option (List Char)
  keywords : Option (List (List Char))
  target_length : Option Nat
deriving DecidableEq

/-- The empty dictionary `data = {}`. -/
def emptyParsed : ParsedPrompt := ⟨none, none, none, none⟩

/-- Lines 369-372: the target length is `int` of the concatenation of every digit
character of the value; the `except` branch yields 1500 when there is no digit. -/
def lengthFieldValue (value : List Char) : Nat :=
  let ds := value.filter Char.isDigit
  if ds.isEmpty then 1500 else digitsToNat ds

/-- Line 367: split the value on commas, strip each part, drop empty parts. -/
def keywordsFieldValue (value : List Char) : List (List Char) :=
  ((splitOnChar ',' value).map pyStrip).filter (fun k => !k.isEmpty)

/-- The normalized key of a line: text before the first colon, stripped, lowered. -/
def lineFieldKey (line : List Char) : List Char :=
  pyLower (pyStrip (line.takeWhile (fun c => c != ':')))

/-- The value of a line: text after the first colon, stripped. -/
def lineFieldValue (line : List Char) : List Char :=
  pyStrip ((line.dropWhile (fun c => c != ':')).drop 1)

/-- Whether the key matches any of the four label synonym sets (lines 362-368). -/
def keyMatchesField (key : List Char) : Bool :=
  hasSubstr "주제".toList key || hasSubstr "topic".toList key ||
  hasSubstr "톤".toList key || hasSubstr "tone".toList key ||
  hasSubstr "키워드".toList key || hasSubstr "keyword".toList key ||
  hasSubstr "길이".toList key || hasSubstr "length".toList key

/-- Whether processing the line can change the dictionary: it has a colon and a
recognized key. -/
def lineIsMatched (line : List Char) : Bool :=
  decide (':' ∈ line) && keyMatchesField (lineFieldKey line)

/-- The body of the `for line in lines` loop (lines 356-372). -/
def parseLine (d : ParsedPrompt) (line : List Char) : ParsedPrompt :=
  if ':' ∈ line then
    let key := lineFieldKey line
    let value := lineFieldValue line
    if hasSubstr "주제".toList key || hasSubstr "topic".toList key then
      { d with topic := some value }
    else if hasSubstr "톤".toList key || hasSubstr "tone".toList key then
      { d with tone := some value }
    else if hasSubstr "키워드".toList key || hasSubstr "keyword".toList key then
      { d with keywords := some (keywordsFieldValue value) }
    else if hasSubstr "길이".toList key || hasSubstr "length".toList key then
      { d with target_length := some (lengthFieldValue value) }
    else d
  else d

/-- `parse_prompt(prompt)`: fold the line handler over the lines of the prompt. -/
def parse_prompt (prompt : List Char) : ParsedPrompt :=
  (splitOnChar '\n' prompt).foldl parseLine emptyParsed

/-- Modelled from the spec wording for claim C5, for comparison only: the target
length as the integer formed by the FIRST RUN of digits in the value, 1500 when
no digits are present. The source concatenates all digits instead. -/
def firstRunTargetLength (value : List Char) : Nat :=
  let run := (value.dropWhile (fun c => !c.isDigit)).takeWhile Char.isDigit
  if run.isEmpty then 1500 else digitsToNat run

/-! ## editor_stage (blog_generator.py lines 596-736)

Phase 1 detects structural labels with five line-anchored regex patterns; each
pattern is compiled here into an equivalent deterministic matcher on the stripped
line. All five patterns are anchored at the start of the string (caret without
the MULTILINE flag), so re.search can only match at position 0. The quantifier
for one-to-three hashes is followed by material disjoint from the hash character,
so a leading run of more than three hashes can never match. -/

def isHash (c : Char) : Bool := c == '#'

/-- Characters of the regex class containing dot, closing parenthesis and
whitespace. -/
def isDotParenWs (c : Char) : Bool := c == '.' || c == ')' || isPySpace c

/-- The rest after the keyword of pattern 1 must be empty, a colon, or one
whitespace character (optional colon-or-space then end of string). -/
def optColonWsEnd : List Char → Bool
  | [] => true
  | [c] => c == ':' || isPySpace c
  | _ => false

/-- Keywords of pattern 1. -/
def kwListP1 : List (List Char) :=
  ["서론".toList, "본론".toList, "결론".toList, "마무리".toList,
   "인트로".toList, "아웃트로".toList]

/-- Keywords of pattern 3. -/
def kwListP3 : List (List Char) :=
  ["서론".toList, "본론".toList, "결론".toList, "마무리".toList]

/-- Keywords of pattern 5. -/
def kwListP5 : List (List Char) := ["서론".toList, "본론".toList, "결론".toList]

/-- Ordinal stems of pattern 4. -/
def ordinalsP4 : List (List Char) :=
  ["첫".toList, "두".toList, "세".toList, "네".toList, "다섯".toList]

/-- Case-insensitive prefix test (the patterns carry re.IGNORECASE; it only
affects the ASCII keyword Body). -/
def lowerPrefix (kw s : List Char) : Bool :=
  kw.isPrefixOf (pyLower (s.take kw.length))

/-- Pattern 1 (line 604): optional whitespace, one to three hashes, optional
whitespace, a section keyword, then an optional colon or whitespace character
and the end of the line. -/
def matchLabelP1 (s : List Char) : Bool :=
  let s1 := s.dropWhile isPySpace
  let hs := s1.takeWhile isHash
  let r2 := (s1.dropWhile isHash).dropWhile isPySpace
  !hs.isEmpty && decide (hs.length ≤ 3) &&
    kwListP1.any (fun kw => kw.isPrefixOf r2 && optColonWsEnd (r2.drop kw.length))

/-- After optional whitespace, the head must be a digit. -/
def digitAfterWs (r : List Char) : Bool :=
  match r.dropWhile isPySpace with
  | [] => false
  | c :: _ => c.isDigit

/-- Pattern 2 (line 605): optional whitespace, one to three hashes, optional
whitespace, the keyword bonmun or Body (case-insensitive), optional whitespace,
a digit. -/
def matchLabelP2 (s : List Char) : Bool :=
  let s1 := s.dropWhile isPySpace
  let hs := s1.takeWhile isHash
  let r2 := (s1.dropWhile isHash).dropWhile isPySpace
  !hs.isEmpty && decide (hs.length ≤ 3) &&
    ((("본문".toList).isPrefixOf r2 && digitAfterWs (r2.drop 2)) ||
     (lowerPrefix "body".toList r2 && digitAfterWs (r2.drop 4)))

/-- Pattern 3 (line 606): optional whitespace, digits, one or more characters
from the dot-parenthesis-whitespace class, a section keyword. -/
def matchLabelP3 (s : List Char) : Bool :=
  let s1 := s.dropWhile isPySpace
  let ds := s1.takeWhile Char.isDigit
  let r := s1.dropWhile Char.isDigit
  let cls := r.takeWhile isDotParenWs
  let r2 := r.dropWhile isDotParenWs
  !ds.isEmpty && !cls.isEmpty && kwListP3.any (fun kw => kw.isPrefixOf r2)

/-- Pattern 4 (line 607): an ordinal stem, optional whitespace, the counter word,
then one colon or whitespace character. -/
def matchLabelP4 (s : List Char) : Bool :=
  ordinalsP4.any (fun ord =>
    ord.isPrefixOf s &&
      (let r := (s.drop ord.length).dropWhile isPySpace
       ("번째".toList).isPrefixOf r &&
         (match r.drop 2 with
          | c :: _ => c == ':' || isPySpace c
          | [] => false)))

/-- Pattern 5 (line 608): optional whitespace, one to three hashes, optional
whitespace, digits, then at least one character from the
dot-parenthesis-whitespace class (the whitespace star in the source pattern is
absorbed by the following class, which contains whitespace), a section keyword. -/
def matchLabelP5 (s : List Char) : Bool :=
  let s1 := s.dropWhile isPySpace
  let hs := s1.takeWhile isHash
  let r2 := (s1.dropWhile isHash).dropWhile isPySpace
  let ds := r2.takeWhile Char.isDigit
  let r3 := r2.dropWhile Char.isDigit
  let cls := r3.takeWhile isDotParenWs
  let r4 := r3.dropWhile isDotParenWs
  !hs.isEmpty && decide (hs.length ≤ 3) && !ds.isEmpty && !cls.isEmpty &&
    kwListP5.any (fun kw => kw.isPrefixOf r4)

/-- A line matches when any of the five patterns matches its stripped text
(lines 613-617). -/
def matchesLabelPattern (s : List Char) : Bool :=
  matchLabelP1 s || matchLabelP2 s || matchLabelP3 s || matchLabelP4 s ||
    matchLabelP5 s

/-- The `detected_labels` list: the lines of the content whose stripped text
matches a pattern (the code stores the line number and text; only the list and
its length are used further). -/
def detectedLabels (content : List Char) : List (List Char) :=
  (splitOnChar '\n' content).filter (fun line => matchesLabelPattern (pyStrip line))

/-- One entry of the `quality_issues` list of the editor result: either a string
from the structured model response, or the note the sanitizer sets in
`label_quality_note` (detected-and-removed on acceptance, detected-but-removal-
failed when the cleanup call raised). -/
inductive QIssue where
  | fromModel (s : List Char)
  | labelsRemoved (n : Nat)
  | labelsNotCorrected (n : Nat) (err : List Char)
deriving DecidableEq

/-- Phase 2 of the sanitizer (lines 619-647), with the outcome of the cleanup
AI call passed in (ok with the returned text, or error with the exception text).
Returns the possibly replaced content and the optional note. The acceptance
guard `cleaned_content and len(cleaned_content) > len(content) * 0.5` is exactly
`cleaned not empty and 2 * len(cleaned) > len(content)` (halving an integer is
exact in binary floating point). When the guard fails the content is kept and NO
note is set. -/
def sanitizeStep (content : List Char) (ndetected : Nat)
    (cleanup : Except (List Char) (List Char)) : List Char × Option QIssue :=
  if ndetected = 0 then (content, none)
  else
    match cleanup with
    | Except.ok cleaned =>
      if !cleaned.isEmpty && decide (content.length < 2 * cleaned.length) then
        (cleaned, some (QIssue.labelsRemoved ndetected))
      else (content, none)
    | Except.error e => (content, some (QIssue.labelsNotCorrected ndetected e))

/-- The fixed `generic_tags` padding pool (lines 715-717); it has 18 entries. -/
def generic_tags : List (List Char) :=
  ["#블로그".toList, "#정보".toList, "#팁".toList, "#가이드".toList,
   "#트렌드".toList, "#인사이트".toList, "#콘텐츠".toList, "#지식공유".toList,
   "#유용한정보".toList, "#꿀팁".toList, "#추천".toList, "#리뷰".toList,
   "#소개".toList, "#분석".toList, "#전문가".toList, "#실전".toList,
   "#노하우".toList, "#핵심정리".toList]

/-- The while loop of lines 718-721: pop pool tags in order while the list is
shorter than 30, appending a tag only when it is not already present. -/
def padHashtags (hashtags : List (List Char)) : List (List Char) → List (List Char)
  | [] => hashtags
  | t :: rest =>
    if hashtags.length < 30 then
      if t ∈ hashtags then padHashtags hashtags rest
      else padHashtags (hashtags ++ [t]) rest
    else hashtags

/-- The structured response of the editor model after JSON extraction; a field is
none when the key is absent. A failed JSON extraction is modelled by passing no
response at all (see `editor_stage`). -/
structure EditorModelOutput where
  improved_content : Option (List Char)
  seo_title : Option (List Char)
  meta_description : Option (List Char)
  hashtags : Option (List (List Char))
  faq : Option (List (List Char × List Char))
  slug : Option (List Char)
  quality_issues : Option (List (List Char))
deriving DecidableEq

/-- The fallback dictionary built on JSON extraction failure (lines 710-712):
improved content is the current content, the title is the topic, hashtags are
empty. -/
def fallbackEditorOutput (content topic : List Char) : EditorModelOutput :=
  ⟨some content, some topic, none, some [], none, none, none⟩

/-- Return value of `editor_stage` (lines 727-736). -/
structure EditorResult where
  improved_content : List Char
  seo_title : List Char
  meta_description : List Char
  hashtags : List (List Char)
  faq : List (List Char × List Char)
  slug : List Char
  quality_issues : List QIssue
deriving DecidableEq

/-- The hashtags carried by the structured response (empty after a parse
failure, since the fallback dictionary sets them to the empty list). -/
def modelHashtags (response : Option EditorModelOutput) : List (List Char) :=
  match response with
  | some r => r.hashtags.getD []
  | none => []

/-- `editor_stage` (lines 596-736) with the two AI calls abstracted: `cleanup`
is the outcome of the label-cleanup call (consumed only when labels were
detected) and `response` is the structured editor response, none on JSON
extraction failure. -/
def editor_stage (content topic : List Char)
    (cleanup : Except (List Char) (List Char))
    (response : Option EditorModelOutput) : EditorResult :=
  let sanitized := sanitizeStep content (detectedLabels content).length cleanup
  let c2 := sanitized.1
  let note := sanitized.2
  let result :=
    match response with
    | some r => r
    | none => fallbackEditorOutput c2 topic
  let hashtags := padHashtags (result.hashtags.getD []) generic_tags
  { improved_content := result.improved_content.getD c2
    seo_title := result.seo_title.getD topic
    meta_description := result.meta_description.getD []
    hashtags := hashtags.take 30
    faq := result.faq.getD []
    slug := result.slug.getD []
    quality_issues := (result.quality_issues.getD []).map QIssue.fromModel
      ++ (match note with | some nt => [nt] | none => []) }

/-! ## generate_blog_post quality loop (blog_generator.py lines 782-883)

The writer and editor calls of each iteration are abstracted by an oracle
`contents : Nat → List Char` giving the final content of each iteration
(`editor_result.get("improved_content", writer content)` in the source). The
loop control depends on the contents only through `check_ai_detection`. -/

/-- `MAX_ITERATIONS = 3` (line 783). -/
def MAX_ITERATIONS : Nat := 3

/-- The mutable loop state: `final_iteration` is set exactly when the loop broke
on a passed check; `quality_warning` is set in the exhausted branch. -/
structure LoopState where
  finalIteration : Option Nat
  qualityWarning : Bool
  finalContent : List Char
deriving DecidableEq

/-- One pass of the `for iteration in range(1, MAX_ITERATIONS + 1)` body
(lines 790-830); a state with `finalIteration` set models the executed break. -/
def loopBody (contents : Nat → List Char) (st : LoopState) (iteration : Nat) :
    LoopState :=
  if st.finalIteration.isSome then st
  else
    let c := contents iteration
    if (check_ai_detection c).passed then ⟨some iteration, st.qualityWarning, c⟩
    else if iteration < MAX_ITERATIONS then ⟨st.finalIteration, st.qualityWarning, c⟩
    else ⟨st.finalIteration, true, c⟩

/-- The whole revision loop over iterations 1, 2, 3. -/
def runLoop (contents : Nat → List Char) : LoopState :=
  (List.range' 1 MAX_ITERATIONS).foldl (loopBody contents) ⟨none, false, []⟩

/-- The metadata fields of the final result that the loop determines
(lines 856-883). -/
structure GenMetadata where
  qualityWarning : Bool
  iterationsUsed : Nat
  aiDetectionScore : Nat
  content : List Char
deriving DecidableEq

/-- `generate_blog_post`, restricted to the quality loop and the metadata it
determines: `iterationsUsed` is the recorded final iteration, defaulting to
`MAX_ITERATIONS` when the loop never broke (line 881), and the final detection
score is recomputed on the final content (line 844). -/
def generate_blog_post (contents : Nat → List Char) : GenMetadata :=
  let st := runLoop contents
  { qualityWarning := st.qualityWarning
    iterationsUsed := st.finalIteration.getD MAX_ITERATIONS
    aiDetectionScore := (check_ai_detection st.finalContent).score
    content := st.finalContent }

/-! ## call_ai dispatch (blog_generator.py lines 64-139)

The network call itself is external; it is abstracted by `net`, the outcome the
provider backend would produce once reached. The client-initialization guards
are the in-repository logic. -/

/-- The exception message of `call_openai` when no client is configured
(line 67). -/
def openaiInitErrorMsg : List Char :=
  "OpenAI client not initialized. Please add your OpenAI API key.".toList

/-- The exception message of `call_gemini` when no client is configured
(line 87). -/
def geminiInitErrorMsg : List Char :=
  "Google Gemini client not initialized. Please add your Google API key.".toList

/-- The exception message of `call_perplexity` when no key is provided
(line 103). -/
def perplexityKeyErrorMsg : List Char := "Perplexity API key not provided.".toList

/-- `call_openai` (lines 64-81): raise when the client is not initialized, else
the transport outcome. -/
def call_openai (openaiInit : Bool) (net : Except (List Char) (List Char)) :
    Except (List Char) (List Char) :=
  if openaiInit then net else Except.error openaiInitErrorMsg

/-- `call_gemini` (lines 84-97). -/
def call_gemini (googleInit : Bool) (net : Except (List Char) (List Char)) :
    Except (List Char) (List Char) :=
  if googleInit then net else Except.error geminiInitErrorMsg

/-- `call_perplexity` (lines 100-123): raise when the key is empty. -/
def call_perplexity (apiKey : List Char) (net : Except (List Char) (List Char)) :
    Except (List Char) (List Char) :=
  if apiKey.isEmpty then Except.error perplexityKeyErrorMsg else net

/-- `call_ai` (lines 126-139): dispatch on the provider string; the claude branch
and the final else branch both go to the OpenAI backend. -/
def call_ai (provider : List Char) (openaiInit googleInit : Bool)
    (perplexityKey : List Char) (net : Except (List Char) (List Char)) :
    Except (List Char) (List Char) :=
  if provider = "openai".toList then call_openai openaiInit net
  else if provider = "gemini".toList then call_gemini googleInit net
  else if provider = "perplexity".toList then call_perplexity perplexityKey net
  else if provider = "claude".toList then call_openai openaiInit net
  else call_openai openaiInit net

/-! ## main guard logic (blog_generator.py lines 886-932) -/

/-- The parsed CLI input after json.loads, with the fields main reads. -/
structure CliInput where
  prompt : Option (List Char)
  title : Option (List Char)
  locale : List Char
  tags : List (List Char)
  apiKeys : List (List Char × List Char)
  testMode : Bool
deriving DecidableEq

/-- The exact error message of the missing-prompt guard (line 912). -/
def promptRequiredMsg : List Char := "Prompt is required".toList

/-- The exact error message of the empty-api-keys guard (line 916). -/
def apiKeysRequiredMsg : List Char :=
  "API keys are required. Please add your AI API keys in settings.".toList

/-- What main decides to do after parsing its input: emit an error object and
exit with the given nonzero code, or run one of the two generation paths. -/
inductive MainAction where
  | emitError (msg : List Char) (exitCode : Nat)
  | runTestSample
  | runGeneratePost
deriving DecidableEq

/-- Python truthiness of the prompt value: false for a missing key and for the
empty string. -/
def promptTruthy : Option (List Char) → Bool
  | none => false
  | some p => !p.isEmpty

/-- The guard cascade of main (lines 911-923): prompt check first, then api-keys
check, then the test-mode fork. Generation is only reached through the two run
actions. -/
def main_dispatch (inp : CliInput) : MainAction :=
  if !promptTruthy inp.prompt then MainAction.emitError promptRequiredMsg 1
  else if inp.apiKeys.isEmpty then MainAction.emitError apiKeysRequiredMsg 1
  else if inp.testMode then MainAction.runTestSample
  else MainAction.runGeneratePost

/-- The json.dumps rendering of an error object with one error key (the message
contains no characters that json.dumps escapes). -/
def jsonErrorOutput (msg : List Char) : List Char :=
  "\x7b\"error\": \"".toList ++ msg ++ "\"\x7d".toList

/-! ## Concrete inputs used by counterexamples and witnesses -/

/-- A natural six-sentence Korean text of 109 characters with varied sentence
lengths and openings; it does not short-circuit the detector. -/
def sampleKo : List Char :=
  "오늘 아침에는 공원을 걸었다. 커피를 마시며 생각을 정리했다. 바람이 제법 차가웠지만 기분은 좋았다. 점심에는 친구와 국수를 먹었다. 저녁에는 책을 읽다가 잠들었다. 내일은 더 일찍 일어나야겠다.".toList

/-- A text that contains all fifteen listed stock phrases, long enough not to
short-circuit the detector. -/
def sampleKo2 : List Char :=
  "이러한 것은 중요합니다 그리고 필수적입니다. 따라서 결론적으로 말하면 핵심입니다. 요약하자면 이것은 그것은 전부입니다. 이를 통해 알아보겠습니다 지금부터요. 이로 인해 살펴보겠습니다 하나씩요. 마무리하며 정리하자면 끝입니다.".toList

/-- Forty leading spaces followed by five identical eleven-character sentences:
raw length 100, stripped length 60, five qualifying sentences. -/
def c7CexText : List Char :=
  (List.replicate 40 ' ') ++
    "12345678901.12345678901.12345678901.12345678901.12345678901.".toList

/-- A draft whose first line is a structural label heading. -/
def c4CexContent : List Char := "## 서론\n이 글은 본문 내용이며 충분히 길다".toList

/-- A structured editor response with every key absent. -/
def emptyEditorModelOutput : EditorModelOutput := ⟨none, none, none, none, none, none, none⟩

/-- The model-supplied quality issues of a response (empty after a parse
failure, since the fallback dictionary has no such key). -/
def modelQualityIssues (response : Option EditorModelOutput) : List (List Char) :=
  match response with
  | some r => r.quality_issues.getD []
  | none => []

/-- A CLI input with a nonempty prompt and an empty api-key mapping. -/
def cliEmptyKeysInput : CliInput :=
  ⟨some "주제: 커피".toList, none, "ko".toList, [], [], false⟩

/-! ## Helper lemmas -/

/-- Membership in a conditional singleton. -/
theorem mem_ite_singleton {α : Type} {c : Prop} [Decidable c] (x y : α) :
    (x ∈ if c then [y] else []) ↔ c ∧ x = y := by
  by_cases hc : c <;> simp [hc]

/-- The split of a string is never the empty list of pieces. -/
theorem splitOnChar_ne_nil (sep : Char) (l : List Char) : splitOnChar sep l ≠ [] := by
  cases l with
  | nil => simp [splitOnChar]
  | cons c cs =>
    simp only [splitOnChar]
    split
    · simp
    · cases h : splitOnChar sep cs <;> simp

/-- A string without the separator splits into itself alone. -/
theorem splitOnChar_no_sep {sep : Char} :
    ∀ {l : List Char}, sep ∉ l → splitOnChar sep l = [l] := by
  intro l
  induction l with
  | nil => intro _; rfl
  | cons c cs ih =>
    intro h
    simp only [List.mem_cons, not_or] at h
    have hc : (c == sep) = false := by
      simp only [beq_eq_false_iff_ne, ne_eq]
      exact fun hh => h.1 hh.symm
    simp [splitOnChar, hc, ih h.2]

/-- Appending a separator and a separator-free line appends one piece. -/
theorem splitOnChar_append_sep {sep : Char} {line : List Char} (hline : sep ∉ line) :
    ∀ p : List Char, splitOnChar sep (p ++ sep :: line) = splitOnChar sep p ++ [line] := by
  intro p
  induction p with
  | nil => simp [splitOnChar, splitOnChar_no_sep hline]
  | cons c cs ih =>
    by_cases hc : (c == sep) = true
    · simp [splitOnChar, hc, ih]
    · have hc' : (c == sep) = false := by simp_all
      obtain ⟨h0, t0, heq⟩ := List.exists_cons_of_ne_nil (splitOnChar_ne_nil sep cs)
      simp [splitOnChar, hc', ih, heq]

/-- A line without a colon or with an unrecognized key leaves the dictionary
unchanged. -/
theorem parseLine_unmatched {line : List Char} (h : lineIsMatched line = false)
    (d : ParsedPrompt) : parseLine d line = d := by
  by_cases hcol : ':' ∈ line
  · have hk : keyMatchesField (lineFieldKey line) = false := by
      simpa [lineIsMatched, hcol] using h
    simp only [keyMatchesField, Bool.or_eq_false_iff] at hk
    obtain ⟨⟨⟨⟨⟨⟨⟨k1, k2⟩, k3⟩, k4⟩, k5⟩, k6⟩, k7⟩, k8⟩ := hk
    have hc1 : (hasSubstr "주제".toList (lineFieldKey line) ||
        hasSubstr "topic".toList (lineFieldKey line)) = false := by rw [k1, k2]; rfl
    have hc2 : (hasSubstr "톤".toList (lineFieldKey line) ||
        hasSubstr "tone".toList (lineFieldKey line)) = false := by rw [k3, k4]; rfl
    have hc3 : (hasSubstr "키워드".toList (lineFieldKey line) ||
        hasSubstr "keyword".toList (lineFieldKey line)) = false := by rw [k5, k6]; rfl
    have hc4 : (hasSubstr "길이".toList (lineFieldKey line) ||
        hasSubstr "length".toList (lineFieldKey line)) = false := by rw [k7, k8]; rfl
    simp only [parseLine, if_pos hcol, hc1, hc2, hc3, hc4, Bool.false_eq_true, if_false]
  · simp [parseLine, hcol]

/-- Parsing a single length-labelled line assigns the length field from the
stripped value. -/
theorem parse_length_line (v : List Char) (hv : '\n' ∉ v) :
    (parse_prompt ('l' :: 'e' :: 'n' :: 'g' :: 't' :: 'h' :: ':' :: v)).target_length =
      some (lengthFieldValue (pyStrip v)) := by
  have hno : '\n' ∉ ('l' :: 'e' :: 'n' :: 'g' :: 't' :: 'h' :: ':' :: v) := by
    simp only [List.mem_cons, not_or]
    exact ⟨by decide, by decide, by decide, by decide, by decide, by decide, by decide, hv⟩
  rw [parse_prompt, splitOnChar_no_sep hno]
  rfl

/-- The specification of the padding loop: it appends a duplicate-free block of
pool tags that are not already present, and the resulting length is the input
length capped between itself and 30 plus the available new tags. -/
theorem padHashtags_spec :
    ∀ pool : List (List Char), pool.Nodup → ∀ h : List (List Char),
      ∃ pads, padHashtags h pool = h ++ pads ∧ pads.Nodup ∧
        (∀ t ∈ pads, t ∈ pool ∧ t ∉ h) ∧
        (padHashtags h pool).length =
          max h.length
            (min 30 (h.length + (pool.filter (fun t => decide (t ∉ h))).length)) := by
  intro pool
  induction pool with
  | nil =>
    intro _ h
    refine ⟨[], by simp [padHashtags], List.nodup_nil, by simp, ?_⟩
    simp only [padHashtags, List.filter_nil, List.length_nil, Nat.add_zero]
    omega
  | cons t rest ih =>
    intro hnd h
    obtain ⟨htr, hrest⟩ := List.nodup_cons.mp hnd
    by_cases hlen : h.length < 30
    · by_cases hmem : t ∈ h
      · obtain ⟨pads, h1, h2, h3, h4⟩ := ih hrest h
        have heq : padHashtags h (t :: rest) = padHashtags h rest := by
          simp [padHashtags, hlen, hmem]
        refine ⟨pads, heq ▸ h1, h2, ?_, ?_⟩
        · intro x hx
          obtain ⟨hx1, hx2⟩ := h3 x hx
          exact ⟨List.mem_cons_of_mem _ hx1, hx2⟩
        · have hfil : (t :: rest).filter (fun x => decide (x ∉ h)) =
              rest.filter (fun x => decide (x ∉ h)) := by
            simp [List.filter_cons, hmem]
          rw [heq, hfil, h4]
      · obtain ⟨pads, h1, h2, h3, h4⟩ := ih hrest (h ++ [t])
        have heq : padHashtags h (t :: rest) = padHashtags (h ++ [t]) rest := by
          simp [padHashtags, hlen, hmem]
        have htpads : t ∉ pads := by
          intro hcon
          exact (h3 t hcon).2 (List.mem_append_right _ (by simp))
        refine ⟨t :: pads, ?_, List.nodup_cons.mpr ⟨htpads, h2⟩, ?_, ?_⟩
        · rw [heq, h1]
          simp
        · intro x hx
          rcases List.mem_cons.mp hx with hx | hx
          · subst hx
            exact ⟨List.mem_cons_self _ _, hmem⟩
          · obtain ⟨hx1, hx2⟩ := h3 x hx
            exact ⟨List.mem_cons_of_mem _ hx1,
              fun hcon => hx2 (List.mem_append_left _ hcon)⟩
        · have hfil2 : rest.filter (fun x => decide (x ∉ h ++ [t])) =
              rest.filter (fun x => decide (x ∉ h)) := by
            apply List.filter_congr
            intro x hx
            have hxt : x ≠ t := fun hcon => htr (hcon ▸ hx)
            simp [List.mem_append, hxt]
          have hfil3 : ((t :: rest).filter (fun x => decide (x ∉ h))).length =
              (rest.filter (fun x => decide (x ∉ h))).length + 1 := by
            simp [List.filter_cons, hmem]
          rw [heq, h4, hfil2, hfil3, List.length_append]
          simp only [List.length_singleton]
          omega
    · refine ⟨[], by simp [padHashtags, hlen], List.nodup_nil, by simp, ?_⟩
      have heq : padHashtags h (t :: rest) = h := by simp [padHashtags, hlen]
      rw [heq]
      omega

/-- The hashtags of the editor result are the padded model hashtags truncated
to 30. -/
theorem editor_stage_hashtags_eq (content topic : List Char)
    (cleanup : Except (List Char) (List Char)) (response : Option EditorModelOutput) :
    (editor_stage content topic cleanup response).hashtags =
      (padHashtags (modelHashtags response) generic_tags).take 30 := by
  cases response <;> simp [editor_stage, modelHashtags, fallbackEditorOutput]

/-! ## Claim theorems -/

/-- C1: in every full pipeline run, iterationsUsed lies in the interval from 1
to 3, and qualityWarning is true exactly when all three iterations ran without
the synthetic-likelihood check passing, which is also exactly iterationsUsed
equal to 3 with a failing third-iteration check. -/
theorem generate_blog_post_iterations (contents : Nat → List Char) :
    1 ≤ (generate_blog_post contents).iterationsUsed ∧
    (generate_blog_post contents).iterationsUsed ≤ 3 ∧
    ((generate_blog_post contents).qualityWarning = true ↔
      ((check_ai_detection (contents 1)).passed = false ∧
        (check_ai_detection (contents 2)).passed = false ∧
        (check_ai_detection (contents 3)).passed = false)) ∧
    ((generate_blog_post contents).qualityWarning = true ↔
      ((generate_blog_post contents).iterationsUsed = 3 ∧
        (check_ai_detection (contents 3)).passed = false)) := by
  have hrun : runLoop contents =
      loopBody contents (loopBody contents (loopBody contents ⟨none, false, []⟩ 1) 2) 3 := rfl
  cases h1 : (check_ai_detection (contents 1)).passed <;>
    cases h2 : (check_ai_detection (contents 2)).passed <;>
      cases h3 : (check_ai_detection (contents 3)).passed <;>
        simp [generate_blog_post, hrun, loopBody, MAX_ITERATIONS, h1, h2, h3]

/-- C2 counterexample: after a parse failure the model supplies no hashtags, the
18-entry pool cannot reach 30, and the Edit-stage hashtag list has length 18. -/
theorem editor_hashtags_counterexample :
    (editor_stage [] [] (Except.ok []) none).hashtags.length = 18 ∧
    (editor_stage [] [] (Except.ok []) none).hashtags.length ≠ 30 := by decide

/-- C2 amended: the Edit-stage hashtag list is the model hashtags plus a
duplicate-free block of pool tags not already among them, truncated to 30; its
length is the minimum of 30 and the model count plus the available new pool
tags (so it is 30 only when enough tags are available, and 18 after a parse
failure). -/
theorem editor_hashtags_amended (content topic : List Char)
    (cleanup : Except (List Char) (List Char)) (response : Option EditorModelOutput) :
    ∃ pads,
      (editor_stage content topic cleanup response).hashtags =
        (modelHashtags response ++ pads).take 30 ∧
      pads.Nodup ∧
      (∀ t ∈ pads, t ∈ generic_tags ∧ t ∉ modelHashtags response) ∧
      (editor_stage content topic cleanup response).hashtags.length =
        min 30 ((modelHashtags response).length +
          (generic_tags.filter (fun t => decide (t ∉ modelHashtags response))).length) := by
  obtain ⟨pads, h1, h2, h3, h4⟩ :=
    padHashtags_spec generic_tags (by decide) (modelHashtags response)
  refine ⟨pads, ?_, h2, h3, ?_⟩
  · rw [editor_stage_hashtags_eq, h1]
  · rw [editor_stage_hashtags_eq, List.length_take, h4]
    omega

/-- C3: when the detector does not short-circuit, the scores list is exactly
the six sub-scores, the final score is their truncated unweighted average, and
passing is exactly a final score strictly below 50. -/
theorem check_score_is_average_of_six (content : List Char)
    (h1 : ¬ content.length < 100) (h2 : ¬ (qualSentences content).length < 5) :
    ai_scores content =
      [phrase_score content, start_score (qualSentences content),
       passive_score content (qualSentences content).length,
       uniformity_score ((qualSentences content).map List.length),
       transition_score content (qualSentences content).length,
       generic_score content] ∧
    (check_ai_detection content).score =
      (phrase_score content + start_score (qualSentences content) +
       passive_score content (qualSentences content).length +
       uniformity_score ((qualSentences content).map List.length) +
       transition_score content (qualSentences content).length +
       generic_score content) / 6 ∧
    ((check_ai_detection content).passed = true ↔ (check_ai_detection content).score < 50) := by
  have h3 : 3 < (qualSentences content).length := by omega
  have hsc : ai_scores content =
      [phrase_score content, start_score (qualSentences content),
       passive_score content (qualSentences content).length,
       uniformity_score ((qualSentences content).map List.length),
       transition_score content (qualSentences content).length,
       generic_score content] := by
    simp [ai_scores, h3]
  refine ⟨hsc, ?_, ?_⟩
  · simp only [check_ai_detection, if_neg h1, if_neg h2, hsc]
    simp [List.sum_cons, List.sum_nil]
    omega
  · simp only [check_ai_detection, if_neg h1, if_neg h2]
    simp [decide_eq_true_iff]

/-- C3 witness: the sample text has 109 characters and six qualifying
sentences, so the theorem applies to it. -/
theorem check_score_is_average_of_six_witness :
    (¬ sampleKo.length < 100) ∧ (¬ (qualSentences sampleKo).length < 5) ∧
    ((check_ai_detection sampleKo).score =
      (phrase_score sampleKo + start_score (qualSentences sampleKo) +
       passive_score sampleKo (qualSentences sampleKo).length +
       uniformity_score ((qualSentences sampleKo).map List.length) +
       transition_score sampleKo (qualSentences sampleKo).length +
       generic_score sampleKo) / 6 ∧
     ((check_ai_detection sampleKo).passed = true ↔
       (check_ai_detection sampleKo).score < 50)) :=
  ⟨by decide, by decide,
    (check_score_is_average_of_six sampleKo (by decide) (by decide)).2⟩

/-- C4 counterexample: the draft contains a detected label line, the corrective
rewrite comes back too short and is rejected, the original is kept, and the
quality-issues list of the Edit result is empty: the detection is silently
dropped, with no detected-but-not-corrected note. -/
theorem sanitize_note_counterexample :
    detectedLabels c4CexContent ≠ [] ∧
    sanitizeStep c4CexContent (detectedLabels c4CexContent).length
      (Except.ok "짧다".toList) = (c4CexContent, none) ∧
    (editor_stage c4CexContent [] (Except.ok "짧다".toList)
      (some emptyEditorModelOutput)).quality_issues = [] := by decide

/-- C4 amended: when labels are detected, the rewrite replaces the draft only
when it is nonempty and strictly longer than half the original, and that case
records a detected-and-removed note surfaced in the quality issues; when the
corrective call raises, a detected-but-not-corrected note is recorded and
surfaced; when the rewrite is rejected as too short, the original is kept and
no note at all is recorded. -/
theorem sanitize_note_amended (content topic cleaned err : List Char)
    (response : Option EditorModelOutput)
    (hdet : detectedLabels content ≠ []) :
    ((!cleaned.isEmpty && decide (content.length < 2 * cleaned.length)) = true →
      sanitizeStep content (detectedLabels content).length (Except.ok cleaned) =
        (cleaned, some (QIssue.labelsRemoved (detectedLabels content).length)) ∧
      QIssue.labelsRemoved (detectedLabels content).length ∈
        (editor_stage content topic (Except.ok cleaned) response).quality_issues) ∧
    ((!cleaned.isEmpty && decide (content.length < 2 * cleaned.length)) = false →
      sanitizeStep content (detectedLabels content).length (Except.ok cleaned) =
        (content, none) ∧
      (editor_stage content topic (Except.ok cleaned) response).quality_issues =
        (modelQualityIssues response).map QIssue.fromModel) ∧
    (sanitizeStep content (detectedLabels content).length (Except.error err) =
        (content, some (QIssue.labelsNotCorrected (detectedLabels content).length err)) ∧
      QIssue.labelsNotCorrected (detectedLabels content).length err ∈
        (editor_stage content topic (Except.error err) response).quality_issues) := by
  have hn : (detectedLabels content).length ≠ 0 := by
    simpa [List.length_eq_zero] using hdet
  refine ⟨?_, ?_, ?_⟩
  · intro hacc
    have hs : sanitizeStep content (detectedLabels content).length (Except.ok cleaned) =
        (cleaned, some (QIssue.labelsRemoved (detectedLabels content).length)) := by
      simp [sanitizeStep, hn, hacc]
    refine ⟨hs, ?_⟩
    cases response <;>
      simp [editor_stage, hs, modelQualityIssues, fallbackEditorOutput]
  · intro hrej
    have hs : sanitizeStep content (detectedLabels content).length (Except.ok cleaned) =
        (content, none) := by
      simp [sanitizeStep, hn, hrej]
    refine ⟨hs, ?_⟩
    cases response <;>
      simp [editor_stage, hs, modelQualityIssues, fallbackEditorOutput]
  · have hs : sanitizeStep content (detectedLabels content).length (Except.error err) =
        (content, some (QIssue.labelsNotCorrected (detectedLabels content).length err)) := by
      simp [sanitizeStep, hn]
    refine ⟨hs, ?_⟩
    cases response <;>
      simp [editor_stage, hs, modelQualityIssues, fallbackEditorOutput]

/-- C4 witness: on the concrete labelled draft, a raised corrective call
records and surfaces the detected-but-not-corrected note. -/
theorem sanitize_note_amended_witness :
    detectedLabels c4CexContent ≠ [] ∧
    (sanitizeStep c4CexContent (detectedLabels c4CexContent).length
        (Except.error "오류".toList) =
      (c4CexContent,
        some (QIssue.labelsNotCorrected (detectedLabels c4CexContent).length "오류".toList)) ∧
      QIssue.labelsNotCorrected (detectedLabels c4CexContent).length "오류".toList ∈
        (editor_stage c4CexContent [] (Except.error "오류".toList) none).quality_issues) :=
  ⟨by decide,
    (sanitize_note_amended c4CexContent [] "짧다".toList "오류".toList none (by decide)).2.2⟩

/-- C5 counterexample: for the value 1,500 the code concatenates all digit
characters and yields 1500, while the first run of digits is just 1. -/
theorem parse_length_counterexample :
    (parse_prompt "length: 1,500".toList).target_length = some 1500 ∧
    firstRunTargetLength (lineFieldValue "length: 1,500".toList) = 1 ∧
    (1500 : Nat) ≠ 1 := by decide

/-- C5 amended: for any line with the length label, the target length is the
integer formed by concatenating ALL digit characters of the stripped value
(not just the first run), and 1500 when the value has no digit. -/
theorem parse_length_all_digits (v : List Char) (hv : '\n' ∉ v) :
    (parse_prompt ('l' :: 'e' :: 'n' :: 'g' :: 't' :: 'h' :: ':' :: v)).target_length =
      some (if ((pyStrip v).filter Char.isDigit).isEmpty then 1500
            else digitsToNat ((pyStrip v).filter Char.isDigit)) := by
  rw [parse_length_line v hv]
  rfl

/-- C5 witness: the amended claim evaluated on the line with value 1,500. -/
theorem parse_length_all_digits_witness :
    ('\n' ∉ " 1,500".toList) ∧
    (parse_prompt ('l' :: 'e' :: 'n' :: 'g' :: 't' :: 'h' :: ':' :: " 1,500".toList)).target_length =
      some (if ((pyStrip " 1,500".toList).filter Char.isDigit).isEmpty then 1500
            else digitsToNat ((pyStrip " 1,500".toList).filter Char.isDigit)) :=
  ⟨by decide, parse_length_all_digits " 1,500".toList (by decide)⟩

/-- C6: in the non-short-circuit path, the recorded stock-phrase sub-score is
min of 100 and 8 times the number of listed stock phrases occurring in the
text, and the stock-phrase issue appears exactly when that sub-score exceeds
40. -/
theorem check_stock_phrase_subscore (content : List Char)
    (h1 : ¬ content.length < 100) (h2 : ¬ (qualSentences content).length < 5) :
    ∃ d, (check_ai_detection content).details = some d ∧
      d.phrase_score = min 100 (8 * phraseCount content) ∧
      (AiIssue.stockPhrases (phraseCount content) ∈ (check_ai_detection content).issues ↔
        40 < d.phrase_score) ∧
      (∀ k, AiIssue.stockPhrases k ∈ (check_ai_detection content).issues →
        k = phraseCount content) := by
  refine ⟨⟨phrase_score content, start_score (qualSentences content),
    passive_score content (qualSentences content).length,
    transition_score content (qualSentences content).length,
    generic_score content⟩, ?_, ?_, ?_, ?_⟩
  · simp [check_ai_detection, if_neg h1, if_neg h2]
  · simp [phrase_score, Nat.mul_comm]
  · have hiss : (check_ai_detection content).issues = ai_issues content := by
      simp [check_ai_detection, if_neg h1, if_neg h2]
    rw [hiss]
    simp only [ai_issues, List.mem_append, mem_ite_singleton]
    simp [phrase_score]
  · intro k hk
    have hiss : (check_ai_detection content).issues = ai_issues content := by
      simp [check_ai_detection, if_neg h1, if_neg h2]
    rw [hiss] at hk
    simp only [ai_issues, List.mem_append, mem_ite_singleton] at hk
    rcases hk with (((((⟨_, hx⟩ | ⟨_, hx⟩) | ⟨_, hx⟩) | ⟨_, hx⟩) | ⟨_, hx⟩) | ⟨_, hx⟩) <;>
      first
        | exact (AiIssue.stockPhrases.injEq _ _).mp hx.symm ▸ rfl
        | exact absurd hx (by simp)
  
/-- C6 witness: the stock-phrase sample contains all fifteen listed phrases,
so the sub-score caps at 100 and the issue is present. -/
theorem check_stock_phrase_subscore_witness :
    (¬ sampleKo2.length < 100) ∧ (¬ (qualSentences sampleKo2).length < 5) ∧
    ∃ d, (check_ai_detection sampleKo2).details = some d ∧
      d.phrase_score = min 100 (8 * phraseCount sampleKo2) ∧
      (AiIssue.stockPhrases (phraseCount sampleKo2) ∈ (check_ai_detection sampleKo2).issues ↔
        40 < d.phrase_score) ∧
      (∀ k, AiIssue.stockPhrases k ∈ (check_ai_detection sampleKo2).issues →
        k = phraseCount sampleKo2) :=
  ⟨by decide, by decide, check_stock_phrase_subscore sampleKo2 (by decide) (by decide)⟩

/-- C7 counterexample: a text whose stripped length is 60, below 100, but whose
raw length is 100 with five qualifying sentences: the check does not
short-circuit and returns score 23 with a nonempty issue list. -/
theorem check_short_circuit_counterexample :
    (pyStrip c7CexText).length < 100 ∧
    (check_ai_detection c7CexText).score = 23 ∧
    ¬ ((check_ai_detection c7CexText).score = 0 ∧
       (check_ai_detection c7CexText).issues = [] ∧
       (check_ai_detection c7CexText).passed = true) := by decide

/-- C7 amended: for any text of RAW length below 100 characters, or with fewer
than five qualifying sentences, the check returns exactly score 0, an empty
issue list and passed true. -/
theorem check_short_circuit_amended (content : List Char)
    (h : content.length < 100 ∨ (qualSentences content).length < 5) :
    check_ai_detection content = ⟨0, [], true, none⟩ := by
  by_cases h1 : content.length < 100
  · simp [check_ai_detection, h1]
  · have h2 : (qualSentences content).length < 5 := h.resolve_left h1
    simp [check_ai_detection, h1, h2]

/-- C7 witness: a two-character text short-circuits. -/
theorem check_short_circuit_amended_witness :
    ("안녕".toList.length < 100 ∨ (qualSentences "안녕".toList).length < 5) ∧
    check_ai_detection "안녕".toList = ⟨0, [], true, none⟩ :=
  ⟨Or.inl (by decide), check_short_circuit_amended "안녕".toList (Or.inl (by decide))⟩

/-- C8: the parser is total by construction (it is a plain function in this
model, mirroring that every fallible step in the source is guarded); lines
without a colon or with an unrecognized key leave the result unchanged, both
per line and on whole prompts, and a length value without digits resolves to
the documented default 1500. -/
theorem parse_prompt_total (prompt line v : List Char) (d : ParsedPrompt) :
    (lineIsMatched line = false → parseLine d line = d) ∧
    ('\n' ∉ line → lineIsMatched line = false →
      parse_prompt (prompt ++ '\n' :: line) = parse_prompt prompt) ∧
    ('\n' ∉ v → ((pyStrip v).filter Char.isDigit).isEmpty = true →
      (parse_prompt ('l' :: 'e' :: 'n' :: 'g' :: 't' :: 'h' :: ':' :: v)).target_length =
        some 1500) := by
  refine ⟨fun h => parseLine_unmatched h d, ?_, ?_⟩
  · intro hnl hum
    rw [parse_prompt, parse_prompt, splitOnChar_append_sep hnl, List.foldl_append]
    simp [parseLine_unmatched hum]
  · intro hv hnod
    rw [parse_length_line v hv]
    simp [lengthFieldValue, hnod]

/-- C8 witness: an unlabelled line appended to a prompt does not change the
parse result. -/
theorem parse_prompt_total_witness :
    lineIsMatched "안녕하세요 여러분".toList = false ∧
    parse_prompt ("topic: coffee".toList ++ '\n' :: "안녕하세요 여러분".toList) =
      parse_prompt "topic: coffee".toList :=
  ⟨by decide,
    (parse_prompt_total "topic: coffee".toList "안녕하세요 여러분".toList [] emptyParsed).2.1
      (by decide) (by decide)⟩

/-- C9: with a nonempty prompt and an empty api-key mapping, main emits exactly
the documented error object with exit code 1 and reaches neither generation
path. -/
theorem main_empty_api_keys (inp : CliInput) (p : List Char)
    (hp : inp.prompt = some p) (hne : p ≠ []) (hk : inp.apiKeys = []) :
    main_dispatch inp = MainAction.emitError apiKeysRequiredMsg 1 ∧
    jsonErrorOutput apiKeysRequiredMsg =
      "\x7b\"error\": \"API keys are required. Please add your AI API keys in settings.\"\x7d".toList ∧
    (∀ msg k, main_dispatch inp = MainAction.emitError msg k → k ≠ 0) ∧
    main_dispatch inp ≠ MainAction.runGeneratePost ∧
    main_dispatch inp ≠ MainAction.runTestSample := by
  have ht : promptTruthy inp.prompt = true := by
    simp [promptTruthy, hp, List.isEmpty_iff, hne]
  have hmain : main_dispatch inp = MainAction.emitError apiKeysRequiredMsg 1 := by
    simp [main_dispatch, ht, hk]
  refine ⟨hmain, by decide, ?_, by simp [hmain], by simp [hmain]⟩
  intro msg k hmk
  rw [hmain] at hmk
  have : k = 1 := ((MainAction.emitError.injEq _ _ _ _).mp hmk.symm).2
  omega

/-- C9 witness: the concrete empty-key input. -/
theorem main_empty_api_keys_witness :
    cliEmptyKeysInput.prompt = some "주제: 커피".toList ∧
    cliEmptyKeysInput.apiKeys = [] ∧
    main_dispatch cliEmptyKeysInput = MainAction.emitError apiKeysRequiredMsg 1 :=
  ⟨rfl, rfl,
    (main_empty_api_keys cliEmptyKeysInput "주제: 커피".toList rfl (by decide) rfl).1⟩

/-- C10: any provider other than openai, gemini and perplexity (claude in
particular) is dispatched to the OpenAI backend; given a successful transport
outcome, the call raises exactly when the OpenAI client is not initialized,
with the OpenAI message, so there is no provider-specific unavailability
failure for such providers. -/
theorem call_ai_default_openai (provider : List Char) (openaiInit googleInit : Bool)
    (perplexityKey s : List Char)
    (h1 : provider ≠ "openai".toList) (h2 : provider ≠ "gemini".toList)
    (h3 : provider ≠ "perplexity".toList) :
    call_ai provider openaiInit googleInit perplexityKey (Except.ok s) =
      call_openai openaiInit (Except.ok s) ∧
    ((∃ e, call_ai provider openaiInit googleInit perplexityKey (Except.ok s) =
        Except.error e) ↔ openaiInit = false) ∧
    (openaiInit = false →
      call_ai provider openaiInit googleInit perplexityKey (Except.ok s) =
        Except.error openaiInitErrorMsg) := by
  have hd : call_ai provider openaiInit googleInit perplexityKey (Except.ok s) =
      call_openai openaiInit (Except.ok s) := by
    unfold call_ai
    rw [if_neg h1, if_neg h2, if_neg h3]
    by_cases hcl : provider = "claude".toList
    · rw [if_pos hcl]
    · rw [if_neg hcl]
  refine ⟨hd, ?_, ?_⟩
  · rw [hd]
    cases openaiInit <;> simp [call_openai]
  · intro hoi
    rw [hd, hoi]
    simp [call_openai]

/-- C10 witness: the claude provider with an uninitialized OpenAI client raises
the OpenAI initialization error. -/
theorem call_ai_default_openai_witness :
    ("claude".toList ≠ "openai".toList) ∧
    call_ai "claude".toList false false [] (Except.ok "텍스트".toList) =
      Except.error openaiInitErrorMsg :=
  ⟨by decide,
    (call_ai_default_openai "claude".toList false false [] "텍스트".toList
      (by decide) (by decide) (by decide)).2.2 rfl⟩
